import Mathlib

/-!
Shallow embedding of the k9s log/view core: `internal/dao/log_options.go`,
`internal/dao/container.go`, and the view extender file (logs extender,
image extender). Go machine integers (`int64`, `time.Duration` in
nanoseconds) are modelled as `Int`; Go `nil`-able pointers and maps as
`Option`; mutating methods as functions returning the updated value.
-/

namespace K9s

/-- Go `time.Second` expressed in nanoseconds, the unit of `time.Duration`. -/
def nanosPerSecond : Int := 1000000000

/-- `dao.LogOptions` (log_options.go lines 31-45). `CreateDuration` is a
`time.Duration` in nanoseconds; `Lines` and `SinceSeconds` are `int64`. -/
structure LogOptions where
  CreateDuration : Int
  Path : String
  Container : String
  DefaultContainer : String
  SinceTime : String
  Lines : Int
  SinceSeconds : Int
  Head : Bool
  Previous : Bool
  SingleContainer : Bool
  MultiPods : Bool
  ShowTimestamp : Bool
  AllContainers : Bool
deriving DecidableEq

/-- `(*LogOptions).Clone` (log_options.go lines 56-71). The Go composite
literal names twelve fields; `CreateDuration` is not among them, so the
clone gets the Go zero value `0` for that field. -/
def LogOptions.Clone (o : LogOptions) : LogOptions where
  CreateDuration := 0
  Path := o.Path
  Container := o.Container
  DefaultContainer := o.DefaultContainer
  SinceTime := o.SinceTime
  Lines := o.Lines
  SinceSeconds := o.SinceSeconds
  Head := o.Head
  Previous := o.Previous
  SingleContainer := o.SingleContainer
  MultiPods := o.MultiPods
  ShowTimestamp := o.ShowTimestamp
  AllContainers := o.AllContainers

/-- `(*LogOptions).HasContainer` (log_options.go lines 74-76). -/
def LogOptions.HasContainer (o : LogOptions) : Bool :=
  o.Container != ""

/-- `(*LogOptions).ToggleAllContainers` (log_options.go lines 79-92),
written as a function from the old value to the updated one. The Go swap
`o.DefaultContainer, o.Container = o.Container, ""` reads the old
`Container`. -/
def LogOptions.ToggleAllContainers (o : LogOptions) : LogOptions :=
  if o.SingleContainer then o
  else
    let o1 := { o with AllContainers := !o.AllContainers }
    if o1.AllContainers then
      { o1 with DefaultContainer := o.Container, Container := "" }
    else if o1.DefaultContainer ≠ "" then
      { o1 with Container := o1.DefaultContainer }
    else
      o1

/-- The subset of `v1.PodLogOptions` fields that `ToPodLogOptions` writes.
Pointer-valued Go fields (`TailLines`, `SinceSeconds`, `LimitBytes`, and
`SinceTime`, a `*metav1.Time` held as epoch nanoseconds) are `Option`. -/
structure PodLogOptions where
  Follow : Bool
  Timestamps : Bool
  Container : String
  Previous : Bool
  TailLines : Option Int
  SinceSeconds : Option Int
  SinceTime : Option Int
  LimitBytes : Option Int
deriving DecidableEq

/-- `(*LogOptions).ToPodLogOptions` (log_options.go lines 95-127). The Go
standard-library call `time.Parse(time.RFC3339, o.SinceTime)` is outside
the sources, so it is abstracted as the `parseRFC3339` argument returning
the parsed instant in epoch nanoseconds on success; `t.Add(time.Second)`
is addition of `nanosPerSecond`. -/
def LogOptions.ToPodLogOptions (parseRFC3339 : String → Option Int)
    (o : LogOptions) : PodLogOptions :=
  let opts : PodLogOptions :=
    { Follow := true
      Timestamps := true
      Container := o.Container
      Previous := o.Previous
      TailLines := some o.Lines
      SinceSeconds := none
      SinceTime := none
      LimitBytes := none }
  if o.Head then
    { opts with Follow := false, TailLines := none, SinceSeconds := none,
                SinceTime := none, LimitBytes := some 5000 }
  else if o.SinceSeconds < 0 then
    opts
  else if o.SinceSeconds ≠ 0 then
    { opts with SinceSeconds := some o.SinceSeconds, SinceTime := none }
  else if o.SinceTime = "" then
    opts
  else
    match parseRFC3339 o.SinceTime with
    | some t => { opts with SinceTime := some (t + nanosPerSecond) }
    | none => opts

/-- A concrete options value with a nonzero `CreateDuration`, used to
exhibit the field that `Clone` drops. -/
def cloneProbe : LogOptions where
  CreateDuration := 5
  Path := "ns1/po1"
  Container := "c1"
  DefaultContainer := "d1"
  SinceTime := "t"
  Lines := 100
  SinceSeconds := 3
  Head := false
  Previous := true
  SingleContainer := false
  MultiPods := true
  ShowTimestamp := true
  AllContainers := false

/-- C1 (counterexample): `Clone` does not preserve every field — on an
options value with `CreateDuration = 5` the clone has `CreateDuration = 0`,
so the clone is not equal to the original in the `CreateDuration` field. -/
theorem Clone_drops_CreateDuration :
    cloneProbe.Clone.CreateDuration ≠ cloneProbe.CreateDuration := by
  decide

/-- C1 (amended): `Clone` returns a value equal to the original in every
field except `CreateDuration`, which is zeroed in the clone. The clone is a
freshly built value sharing no mutable state with the original, so in this
value-semantics embedding updating one cannot change the other. -/
theorem Clone_eq_except_CreateDuration (o : LogOptions) :
    o.Clone = { o with CreateDuration := 0 } := rfl

/-- C2: with `Head = true` the derived pod-log options disable following,
clear tail-lines, since-seconds and since-time, and set the 5000-byte cap,
regardless of every other field and of the timestamp parser. -/
theorem head_forces_bounded_fetch (parse : String → Option Int)
    (o : LogOptions) (h : o.Head = true) :
    (o.ToPodLogOptions parse).Follow = false ∧
    (o.ToPodLogOptions parse).TailLines = none ∧
    (o.ToPodLogOptions parse).SinceSeconds = none ∧
    (o.ToPodLogOptions parse).SinceTime = none ∧
    (o.ToPodLogOptions parse).LimitBytes = some 5000 := by
  simp [LogOptions.ToPodLogOptions, h]

/-- A head-mode options value with every other constraint deliberately
set, used to instantiate the head-mode theorem. -/
def headProbe : LogOptions where
  CreateDuration := 0
  Path := "ns/po"
  Container := "c"
  DefaultContainer := ""
  SinceTime := "2023-01-02T03:04:05Z"
  Lines := 40
  SinceSeconds := 7
  Head := true
  Previous := true
  SingleContainer := false
  MultiPods := false
  ShowTimestamp := false
  AllContainers := false

/-- C2 witness: the head-mode theorem evaluated on `headProbe`. -/
theorem head_forces_bounded_fetch_witness :
    headProbe.Head = true ∧
    ((headProbe.ToPodLogOptions fun _ => some 0).Follow = false ∧
     (headProbe.ToPodLogOptions fun _ => some 0).TailLines = none ∧
     (headProbe.ToPodLogOptions fun _ => some 0).SinceSeconds = none ∧
     (headProbe.ToPodLogOptions fun _ => some 0).SinceTime = none ∧
     (headProbe.ToPodLogOptions fun _ => some 0).LimitBytes = some 5000) :=
  ⟨rfl, head_forces_bounded_fetch (fun _ => some 0) headProbe rfl⟩

/-- C3: with `Head = false`, a negative `SinceSeconds` yields parameters
with no time constraint at all (both since fields nil) regardless of
`SinceTime`, and a positive `SinceSeconds` yields parameters carrying
exactly that duration and no since-timestamp. -/
theorem sinceSeconds_precedence (parse : String → Option Int)
    (o : LogOptions) (h : o.Head = false) :
    (o.SinceSeconds < 0 →
      (o.ToPodLogOptions parse).SinceSeconds = none ∧
      (o.ToPodLogOptions parse).SinceTime = none) ∧
    (0 < o.SinceSeconds →
      (o.ToPodLogOptions parse).SinceSeconds = some o.SinceSeconds ∧
      (o.ToPodLogOptions parse).SinceTime = none) := by
  constructor
  · intro hneg
    simp [LogOptions.ToPodLogOptions, h, hneg]
  · intro hpos
    have h1 : ¬ o.SinceSeconds < 0 := by omega
    have h2 : o.SinceSeconds ≠ 0 := by omega
    simp [LogOptions.ToPodLogOptions, h, h1, h2]

/-- Options with a negative since-duration and an explicit timestamp. -/
def negSinceProbe : LogOptions :=
  { headProbe with Head := false, SinceSeconds := -1 }

/-- C3 witness: the precedence theorem evaluated on `negSinceProbe`
(negative branch) and on `headProbe` with `Head := false` (positive
branch, `SinceSeconds = 7`). -/
theorem sinceSeconds_precedence_witness :
    ((negSinceProbe.ToPodLogOptions fun _ => some 0).SinceSeconds = none ∧
     (negSinceProbe.ToPodLogOptions fun _ => some 0).SinceTime = none) ∧
    (({ headProbe with Head := false }.ToPodLogOptions
        fun _ => some 0).SinceSeconds = some 7 ∧
     ({ headProbe with Head := false }.ToPodLogOptions
        fun _ => some 0).SinceTime = none) :=
  ⟨(sinceSeconds_precedence (fun _ => some 0) negSinceProbe rfl).1 (by decide),
   (sinceSeconds_precedence (fun _ => some 0)
      { headProbe with Head := false } rfl).2 (by decide)⟩

/-- C4: with `Head = false`, `SinceSeconds = 0` and a non-empty
`SinceTime`, a successful RFC3339 parse yields a since-time boundary equal
to the parsed instant plus one second, while a parse failure silently
drops the constraint (no since-time in the result); the translation is a
total function, so no error is produced either way. -/
theorem sinceTime_boundary (parse : String → Option Int) (o : LogOptions)
    (hh : o.Head = false) (hs : o.SinceSeconds = 0) (hne : o.SinceTime ≠ "") :
    (∀ t, parse o.SinceTime = some t →
      (o.ToPodLogOptions parse).SinceTime = some (t + nanosPerSecond)) ∧
    (parse o.SinceTime = none →
      (o.ToPodLogOptions parse).SinceTime = none) := by
  constructor
  · intro t ht
    simp [LogOptions.ToPodLogOptions, hh, hs, hne, ht]
  · intro ht
    simp [LogOptions.ToPodLogOptions, hh, hs, hne, ht]

/-- Options asking for logs since an explicit timestamp. -/
def sinceTimeProbe : LogOptions :=
  { headProbe with Head := false, SinceSeconds := 0,
                   SinceTime := "2023-01-02T03:04:05Z" }

/-- C4 witness: the boundary theorem evaluated on `sinceTimeProbe` with a
parser that parses its timestamp to instant `10`, and with a parser that
fails on it. -/
theorem sinceTime_boundary_witness :
    (sinceTimeProbe.ToPodLogOptions fun _ => some 10).SinceTime
      = some (10 + nanosPerSecond) ∧
    (sinceTimeProbe.ToPodLogOptions fun _ => none).SinceTime = none :=
  ⟨(sinceTime_boundary (fun _ => some 10) sinceTimeProbe rfl rfl
      (by decide)).1 10 rfl,
   (sinceTime_boundary (fun _ => none) sinceTimeProbe rfl rfl
      (by decide)).2 rfl⟩

/-- C5: `ToggleAllContainers` is the identity when `SingleContainer` is
set (hence a no-op under a second call too); otherwise one call flips
`AllContainers`, and a flip to on moves the active container name into
`DefaultContainer`, empties `Container`, and a second call restores the
remembered name into `Container` when it is non-empty. -/
theorem toggleAllContainers_spec (o : LogOptions) :
    (o.SingleContainer = true →
      o.ToggleAllContainers = o ∧
      o.ToggleAllContainers.ToggleAllContainers = o) ∧
    (o.SingleContainer = false →
      o.ToggleAllContainers.AllContainers = !o.AllContainers ∧
      (o.AllContainers = false →
        o.ToggleAllContainers.DefaultContainer = o.Container ∧
        o.ToggleAllContainers.Container = "" ∧
        (o.Container ≠ "" →
          o.ToggleAllContainers.ToggleAllContainers.Container
            = o.Container))) := by
  constructor
  · intro h
    constructor
    · simp [LogOptions.ToggleAllContainers, h]
    · simp [LogOptions.ToggleAllContainers, h]
  · intro h
    constructor
    · by_cases ha : o.AllContainers
      · simp only [LogOptions.ToggleAllContainers, h, ha]
        simp only [Bool.not_true, if_false, Bool.false_eq_true]
        split <;> rfl
      · simp [LogOptions.ToggleAllContainers, h, ha]
    · intro ha
      refine ⟨?_, ?_, ?_⟩
      · simp [LogOptions.ToggleAllContainers, h, ha]
      · simp [LogOptions.ToggleAllContainers, h, ha]
      · intro hc
        simp [LogOptions.ToggleAllContainers, h, ha, hc]

/-- Multi-container options with an active container name, used to drive
the toggle round trip. -/
def toggleProbe : LogOptions where
  CreateDuration := 0
  Path := "ns/po"
  Container := "web"
  DefaultContainer := "old"
  SinceTime := ""
  Lines := 10
  SinceSeconds := 0
  Head := false
  Previous := false
  SingleContainer := false
  MultiPods := false
  ShowTimestamp := false
  AllContainers := false

/-- C5 witness: on `toggleProbe` one toggle empties `Container` while
remembering `"web"`, and a second toggle restores it. -/
theorem toggleAllContainers_spec_witness :
    toggleProbe.ToggleAllContainers.Container = "" ∧
    toggleProbe.ToggleAllContainers.ToggleAllContainers.Container
      = "web" := by
  have h := ((toggleAllContainers_spec toggleProbe).2 rfl).2 rfl
  exact ⟨h.2.1, h.2.2 (by decide)⟩

/-- Observable actions a view command handler performs, in order. The
handler return value in Go is always `nil` (input consumed), so a
handler's behaviour is fully captured by its trace of actions. -/
inductive UIEvent where
  | stop
  | start
  | showDialog (path : String)
  | showTraceDialog (path : String)
  | flashErr
  | showLogs (path : String) (prev : Bool)
deriving DecidableEq

/-- Strips leading and trailing occurrences of a character, mirroring Go
`strings.Trim` for a one-character cutset. -/
def trimChar (c : Char) (s : String) : String :=
  String.mk (((s.toList.dropWhile fun x => x = c).reverse.dropWhile
    fun x => x = c).reverse)

/-- Modelled from the spec: `client.Namespaced` (the `internal/client`
package is not among the sources) splits a resource path of the form
`<namespace>/<name>` at its last slash into a namespace part and a name
part; a bare `<name>` has an empty namespace. It mirrors Go
`path.Split` followed by trimming slashes off the directory part. -/
def Namespaced (p : String) : String × String :=
  let cs := p.toList
  if cs.contains '/' then
    (trimChar '/' (String.mk ((cs.reverse.dropWhile fun c => c ≠ '/').reverse)),
     String.mk ((cs.reverse.takeWhile fun c => c ≠ '/').reverse))
  else
    ("", p)

/-- `isResourcePath` from the logs extender: a path is resource shaped iff
both its namespace part and its name part are non-empty. -/
def isResourcePath (p : String) : Bool :=
  let (ns, n) := Namespaced p
  ns != "" && n != ""

/-- The closure returned by `(*LogsExtender).logsCmd`, as the trace of
actions it performs given the table's selected item and current path: an
empty selection is a silent no-op; a selection that is not resource
shaped is replaced by the table path; otherwise the selection is shown. -/
def logsCmd (selected tablePath : String) (prev : Bool) : List UIEvent :=
  if selected = "" then []
  else
    let path := if isResourcePath selected then selected else tablePath
    [UIEvent.showLogs path prev]

/-- `(*ImageExtender).setImageCmd` as the trace of actions it performs.
`dialogOk` abstracts whether `showImageDialog` returns without error. An
empty selection is a silent no-op; otherwise the loop is stopped, the
dialog shown, a failure flashed, and the deferred `Start` runs on return. -/
def setImageCmd (selected : String) (dialogOk : Bool) : List UIEvent :=
  if selected = "" then []
  else
    [UIEvent.stop, UIEvent.showDialog selected]
      ++ (if dialogOk then [] else [UIEvent.flashErr])
      ++ [UIEvent.start]

/-- `(*ImageExtender).setTraceLogsCmd` as the trace of actions it
performs; same shape as `setImageCmd` with the trace-logs dialog. -/
def setTraceLogsCmd (selected : String) (dialogOk : Bool) : List UIEvent :=
  if selected = "" then []
  else
    [UIEvent.stop, UIEvent.showTraceDialog selected]
      ++ (if dialogOk then [] else [UIEvent.flashErr])
      ++ [UIEvent.start]

/-- The logger slice of the external configuration
(`l.App().Config.K9s.Logger`): default tail count and show-time flag. -/
structure LoggerConfig where
  tailCount : Int
  showTime : Bool
deriving DecidableEq

/-- `(*LogsExtender).buildLogOpts`: builds the log options for a path and
container, seeding `Lines` and `ShowTimestamp` from the configuration and
turning on `AllContainers` when no container is named. Fields absent from
the Go composite literal carry their zero values. -/
def buildLogOpts (cfg : LoggerConfig) (path co : String)
    (prevLogs : Bool) : LogOptions :=
  let opts : LogOptions :=
    { CreateDuration := 0
      Path := path
      Container := co
      DefaultContainer := ""
      SinceTime := ""
      Lines := cfg.tailCount
      SinceSeconds := 0
      Head := false
      Previous := prevLogs
      SingleContainer := false
      MultiPods := false
      ShowTimestamp := cfg.showTime
      AllContainers := false }
  if opts.Container = "" then { opts with AllContainers := true }
  else opts

/-- The slice of `v1.Container` that `Container.List` reads. -/
structure ContainerSpec where
  name : String
  image : String
deriving DecidableEq

/-- The slice of `v1.ContainerStatus` that `getContainerStatus` matches. -/
structure ContainerStatus where
  name : String
  ready : Bool
deriving DecidableEq

/-- The slice of `v1.PodStatus` read by `getContainerStatus`. -/
structure PodStatus where
  containerStatuses : List ContainerStatus
  initContainerStatuses : List ContainerStatus
deriving DecidableEq

/-- The slice of `v1.Pod` that `Container.List` reads: declared init and
regular containers, status, and the creation timestamp (epoch ns). -/
structure Pod where
  initContainers : List ContainerSpec
  containers : List ContainerSpec
  status : PodStatus
  creationTimestamp : Int
deriving DecidableEq

/-- The slice of `mv1beta1.ContainerMetrics` carried per record. -/
structure ContainerMetrics where
  name : String
deriving DecidableEq

/-- `render.ContainerRes` as populated by `makeContainerRes`. -/
structure ContainerRes where
  container : ContainerSpec
  status : Option ContainerStatus
  mx : Option ContainerMetrics
  isInit : Bool
  age : Int
deriving DecidableEq

/-- `getContainerStatus` (container.go lines 91-104): looks the name up in
the regular container statuses first, then the init container statuses. -/
def getContainerStatus (co : String) (status : PodStatus) :
    Option ContainerStatus :=
  match status.containerStatuses.find? fun c => c.name == co with
  | some c => some c
  | none => status.initContainerStatuses.find? fun c => c.name == co

/-- `makeContainerRes` (container.go lines 81-89). -/
def makeContainerRes (co : ContainerSpec) (po : Pod)
    (cmx : Option ContainerMetrics) (isInit : Bool) : ContainerRes where
  container := co
  status := getContainerStatus co.name po.status
  mx := cmx
  isInit := isInit
  age := po.creationTimestamp

/-- `(*Container).List` (container.go lines 41-68). `ctxPath` is the
`KeyPath` context value (`none` when absent), `withMx` the `KeyWithMetrics`
value; `fetchMetrics` abstracts `FetchContainersMetrics`, whose error the
code discards (`cmx, _ = ...`), so a failed fetch is the `none` map and
every per-container lookup then yields no metrics; `fetchPod` abstracts
the Factory get of the owning pod. -/
def containerList (ctxPath : Option String) (withMx : Option Bool)
    (fetchMetrics : String → Option (String → Option ContainerMetrics))
    (fetchPod : String → Except String Pod) :
    Except String (List ContainerRes) :=
  match ctxPath with
  | none => Except.error "no context path"
  | some fqn =>
    let fetched :=
      if withMx.getD true then fetchMetrics fqn else none
    let cmx : String → Option ContainerMetrics := fun n =>
      match fetched with
      | none => none
      | some m => m n
    match fetchPod fqn with
    | Except.error e => Except.error e
    | Except.ok po =>
      Except.ok
        ((po.initContainers.map fun co => makeContainerRes co po (cmx co.name) true)
          ++ (po.containers.map fun co => makeContainerRes co po (cmx co.name) false))

/-- C6: `isResourcePath p` holds iff splitting `p` yields a non-empty
namespace part and a non-empty name part; and the logs handler, on a
non-empty selection that is not resource shaped, substitutes the table's
current path and completes with a plain show-logs action (it cannot
fail: its trace is total and contains no error action). -/
theorem isResourcePath_iff_and_fallback (p selected tablePath : String)
    (prev : Bool) :
    (isResourcePath p = true ↔
      ((Namespaced p).1 ≠ "" ∧ (Namespaced p).2 ≠ "")) ∧
    (selected ≠ "" → isResourcePath selected = false →
      logsCmd selected tablePath prev = [UIEvent.showLogs tablePath prev]) := by
  constructor
  · simp [isResourcePath]
  · intro hne hshape
    simp [logsCmd, hne, hshape]

/-- C6 witness: `"ns/po"` is resource shaped, a bare `"po-123"` is not,
and on selection `"po-123"` the handler falls back to the table path. -/
theorem isResourcePath_iff_and_fallback_witness :
    isResourcePath "ns/po" = true ∧
    logsCmd "po-123" "ns/tbl" false = [UIEvent.showLogs "ns/tbl" false] :=
  ⟨(isResourcePath_iff_and_fallback "ns/po" "x" "y" false).1.mpr
      (by constructor <;> decide),
   (isResourcePath_iff_and_fallback "z" "po-123" "ns/tbl" false).2
      (by decide) (by decide)⟩

/-- C7: with an empty selected path every modelled command handler is a
silent no-op — its action trace is empty, so nothing downstream runs and
no notification is issued. -/
theorem empty_selection_silent_noop (tablePath : String) (prev dialogOk : Bool) :
    logsCmd "" tablePath prev = [] ∧
    setImageCmd "" dialogOk = [] ∧
    setTraceLogsCmd "" dialogOk = [] := by
  refine ⟨?_, ?_, ?_⟩ <;> simp [logsCmd, setImageCmd, setTraceLogsCmd]

/-- C8: for a pod whose metrics fetch failed (`fetchMetrics` yields no
map), the list still succeeds and returns exactly one record per declared
container — init containers first in declared order, then regular
containers in declared order — each built without metrics; in particular
the record count is the sum of the two declared counts. -/
theorem containerList_order_and_best_effort_metrics
    (fqn : String) (po : Pod)
    (fetchMetrics : String → Option (String → Option ContainerMetrics))
    (fetchPod : String → Except String Pod)
    (hpo : fetchPod fqn = Except.ok po)
    (hmx : fetchMetrics fqn = none) :
    containerList (some fqn) (some true) fetchMetrics fetchPod
      = Except.ok
          ((po.initContainers.map fun co => makeContainerRes co po none true)
            ++ (po.containers.map fun co => makeContainerRes co po none false)) ∧
    ((po.initContainers.map fun co => makeContainerRes co po none true)
        ++ (po.containers.map fun co => makeContainerRes co po none false)).length
      = po.initContainers.length + po.containers.length := by
  constructor
  · simp [containerList, hpo, hmx]
  · simp

/-- A two-container pod (one init, one regular) used to instantiate the
container listing theorem. -/
def podProbe : Pod where
  initContainers := [{ name := "init-a", image := "busybox" }]
  containers := [{ name := "main", image := "nginx" }]
  status :=
    { containerStatuses := [{ name := "main", ready := true }]
      initContainerStatuses := [{ name := "init-a", ready := false }] }
  creationTimestamp := 1000

/-- C8 witness: listing `podProbe` under a failed metrics fetch yields its
init record then its main record, both without metrics. -/
theorem containerList_order_and_best_effort_metrics_witness :
    containerList (some "ns/web-0") (some true) (fun _ => none)
        (fun _ => Except.ok podProbe)
      = Except.ok
          [makeContainerRes { name := "init-a", image := "busybox" } podProbe none true,
           makeContainerRes { name := "main", image := "nginx" } podProbe none false] :=
  (containerList_order_and_best_effort_metrics "ns/web-0" podProbe
    (fun _ => none) (fun _ => Except.ok podProbe) rfl rfl).1

/-- C9: on a non-empty selection, the set-image handler's trace starts by
suspending the interactive loop, ends by resuming it — on both the
successful and the failing dialog path — and suspends and resumes exactly
once, with the dialog opened in between; the trace-logs handler has the
same discipline. -/
theorem setImageCmd_stop_start_discipline (selected : String)
    (dialogOk : Bool) (h : selected ≠ "") :
    (setImageCmd selected dialogOk).head? = some UIEvent.stop ∧
    (setImageCmd selected dialogOk).getLast? = some UIEvent.start ∧
    (setImageCmd selected dialogOk).count UIEvent.stop = 1 ∧
    (setImageCmd selected dialogOk).count UIEvent.start = 1 ∧
    UIEvent.showDialog selected ∈ setImageCmd selected dialogOk ∧
    (setTraceLogsCmd selected dialogOk).head? = some UIEvent.stop ∧
    (setTraceLogsCmd selected dialogOk).getLast? = some UIEvent.start := by
  cases dialogOk <;>
    simp [setImageCmd, setTraceLogsCmd, h, List.count_cons, List.count_nil]

/-- C9 witness: the discipline theorem evaluated on selection `"ns/po"`
with a failing dialog. -/
theorem setImageCmd_stop_start_discipline_witness :
    (setImageCmd "ns/po" false).head? = some UIEvent.stop ∧
    (setImageCmd "ns/po" false).getLast? = some UIEvent.start :=
  ⟨(setImageCmd_stop_start_discipline "ns/po" false (by decide)).1,
   (setImageCmd_stop_start_discipline "ns/po" false (by decide)).2.1⟩

/-- C10: `buildLogOpts` turns on `AllContainers` exactly when no container
is named (leaving it off and keeping the name otherwise), and always seeds
`Lines` and `ShowTimestamp` from the logger configuration. -/
theorem buildLogOpts_spec (cfg : LoggerConfig) (path co : String)
    (prev : Bool) :
    (co = "" → (buildLogOpts cfg path co prev).AllContainers = true) ∧
    (co ≠ "" →
      (buildLogOpts cfg path co prev).AllContainers = false ∧
      (buildLogOpts cfg path co prev).Container = co) ∧
    (buildLogOpts cfg path co prev).Lines = cfg.tailCount ∧
    (buildLogOpts cfg path co prev).ShowTimestamp = cfg.showTime := by
  refine ⟨?_, ?_, ?_, ?_⟩
  · intro h
    simp [buildLogOpts, h]
  · intro h
    simp [buildLogOpts, h]
  · by_cases h : co = "" <;> simp [buildLogOpts, h]
  · by_cases h : co = "" <;> simp [buildLogOpts, h]

/-- C10 witness: the seeding theorem evaluated on both an empty and a
named container with tail count 200 and show-time on. -/
theorem buildLogOpts_spec_witness :
    (buildLogOpts { tailCount := 200, showTime := true } "ns/po" "" false).AllContainers
      = true ∧
    (buildLogOpts { tailCount := 200, showTime := true } "ns/po" "web" false).AllContainers
      = false ∧
    (buildLogOpts { tailCount := 200, showTime := true } "ns/po" "web" false).Lines
      = 200 :=
  ⟨(buildLogOpts_spec { tailCount := 200, showTime := true } "ns/po" "" false).1 rfl,
   ((buildLogOpts_spec { tailCount := 200, showTime := true } "ns/po" "web" false).2.1
      (by decide)).1,
   (buildLogOpts_spec { tailCount := 200, showTime := true } "ns/po" "web" false).2.2.1⟩

end K9s
